import Mathlib

/-!
Shallow embedding of the web-scraping pipeline (config.py, scraper.py,
database.py) and proofs about its specified behaviour.

Modelling conventions:
* network / HTML parsing is abstracted by injected functions held in a
  `ScrapeEnv` record (what `fetch_page` yields per URL, which item blocks
  BeautifulSoup finds on a page, which meta description a detail page holds);
* Python exceptions that a `try`/`except` converts into a skipped item or a
  sentinel return value are modelled with `Option`;
* SQLAlchemy / sqlite errors are modelled by boolean failure flags in the
  environment, since whether a given call raises is environmental;
* `float` values (prices, ratings) are modelled as `Rat`; Python `round(x, 2)`
  on the success rate is omitted (no claim depends on the rounding);
* `time.sleep` calls are not timed but traced, so that the retry/backoff and
  politeness-delay schedules are visible in the function results.
-/

/-- Result of `WebScraper.fetch_page`: the returned value, the number of
attempts actually made, and the list of back-off waits (in seconds) performed
between attempts, in order. -/
structure FetchTrace where
  result : Option String
  attempts : Nat
  waits : List Nat
  deriving DecidableEq

/-- The retry loop body of `fetch_page`, from `for attempt in
range(max_retries)`.  `resp k` is the outcome of the HTTP GET on (0-based)
attempt `k`: `some content` on a 2xx response, `none` when
`requests.RequestException` is raised (timeout, connection error, or the
non-2xx raised by `raise_for_status`).  `attempt` is the current 0-based
attempt index, the second argument the number of loop iterations left.
On failure with iterations remaining the code sleeps `2 ** attempt`;
on the final iteration it returns `None` with no sleep. -/
def fetchGo (resp : Nat → Option String) (attempt : Nat) : Nat → FetchTrace
  | 0 => ⟨none, 0, []⟩
  | remaining + 1 =>
    match resp attempt with
    | some content => ⟨some content, 1, []⟩
    | none =>
      if remaining = 0 then
        ⟨none, 1, []⟩
      else
        let t := fetchGo resp (attempt + 1) remaining
        ⟨t.result, t.attempts + 1, 2 ^ attempt :: t.waits⟩

/-- `WebScraper.fetch_page(url)` with `SCRAPING_CONFIG['max_retries'] = n`.
(When `n = 0` the loop body never runs and the Python function falls off the
end, returning `None`.) -/
def fetchPage (resp : Nat → Option String) (maxRetries : Nat) : FetchTrace :=
  fetchGo resp 0 maxRetries

/-- Python truthiness of an `Optional[str]`: `None` and `''` are falsy.
Used by `if not html_content: continue` and `if html:`. -/
def truthy : Option String → Bool
  | none => false
  | some s => s ≠ ""

-- ---------------------------------------------------------------------------
-- Item blocks and records
-- ---------------------------------------------------------------------------

/-- One `<article class="product_pod">` block found by `scrape_books`.
Each field is `some v` when the corresponding element/attribute chain is
present (and, for `price`, its text parses as a float), `none` when accessing
it would raise inside the per-book `try`:
`title` ~ `book.h3.a['title']`, `price` ~
`float(book.find('p', class_='price_color').text.replace('£',''))`,
`ratingClass` ~ `book.p['class'][1]`, `availabilityText` ~
`book.find('p', class_='instock availability').text`, `href` ~
`book.h3.a['href']`. -/
structure BookItem where
  title : Option String
  price : Option Rat
  ratingClass : Option String
  availabilityText : Option String
  href : Option String
  deriving DecidableEq

/-- One `<div class="thumbnail">` block found by `scrape_products`.
`name` models `product.find('a', class_='title')`: `none` when the element is
absent, otherwise `(text, href attribute)` where the attribute may be absent.
The remaining fields model the price / description / rating / review-count
elements, `none` when the element is absent. -/
structure ProductItem where
  name : Option (String × Option String)
  price : Option Rat
  descText : Option String
  rating : Option Rat
  reviews : Option Nat
  deriving DecidableEq

/-- A record built by `scrape_books` for one book. -/
structure BookData where
  title : String
  price : Rat
  rating : String
  availability : String
  category : String
  url : String
  description : String
  deriving DecidableEq

/-- A record built by `scrape_products` for one product. -/
structure ProductData where
  name : String
  price : Rat
  description : String
  rating : Rat
  reviews : Nat
  category : String
  url : String
  deriving DecidableEq

/-- `url.split('/')[-2] if len(url.split('/')) >= 2 else 'unknown'`
(the `category` field in `scrape_books`). -/
def bookCategory (url : String) : String :=
  let parts := url.splitOn "/"
  if parts.length ≥ 2 then parts.getD (parts.length - 2) "" else "unknown"

/-- `WebScraper._extract_category`:
`url.split('/')[-1] if '/' in url else 'all'` (the `try` body cannot fail,
so the `except: return 'unknown'` branch is dead). -/
def extractCategory (url : String) : String :=
  if url.contains '/' then (url.splitOn "/").getLastD "" else "all"

-- ---------------------------------------------------------------------------
-- Environment: everything the scraper observes from network and HTML
-- ---------------------------------------------------------------------------

/-- The external world and failure switches seen by one run.
`fetch url` is the value `fetch_page(url)` returns (already including its
internal retries); `bookBlocks` / `productBlocks` are the item blocks
BeautifulSoup's `find_all` yields on given page content; `descMeta html` is
the `content` attribute of the description `<meta>` tag of a detail page when
present; the `...Fails` flags say whether the corresponding database call
raises `SQLAlchemyError` (resp. any exception, for stats) — `logFails` is
the flag for the `scraping_logs` insert inside `log_scraping_run`;
`scrape...Exn` is `some message` when an uncaught exception escapes the
target's scrape phase inside `run_scraping_job`'s `try`. -/
structure ScrapeEnv where
  fetch : String → Option String
  bookBlocks : String → List BookItem
  productBlocks : String → List ProductItem
  descMeta : String → Option String
  booksUrls : List String
  productsUrls : List String
  saveBooksFails : Bool
  saveProductsFails : Bool
  exportFails : Bool
  statsFails : Bool
  logFails : Bool
  scrapeBooksExn : Option String
  scrapeProductsExn : Option String

/-- `WebScraper._get_book_description(book_path)`: fetch the detail page and
read the description meta tag; any failure (fetch absent or falsy, missing
tag, missing `content` attribute caught by the bare `except`) degrades to
`''`. -/
def getBookDescription (env : ScrapeEnv) (bookPath : String) : String :=
  let url := "http://books.toscrape.com/catalogue/" ++
    bookPath.replace "../../../" ""
  let html := env.fetch url
  if truthy html then ((env.descMeta (html.getD "")).getD "") else ""

/-- The body of the per-book `try` in `scrape_books`: builds the record when
every accessed element/attribute is present, `none` when any access raises
(the `except` logs and drops the book).  There are no per-field defaults for
books. -/
def parseBook (env : ScrapeEnv) (url : String) (b : BookItem) :
    Option BookData :=
  match b.title, b.price, b.ratingClass, b.availabilityText, b.href with
  | some t, some p, some r, some av, some h =>
    some { title := t, price := p, rating := r, availability := av.trim,
           category := bookCategory url,
           url := "http://books.toscrape.com/catalogue/" ++ h,
           description := getBookDescription env h }
  | _, _, _, _, _ => none

/-- The body of the per-product `try` in `scrape_products`: each absent
element falls back to a default (`'N/A'`, `0.0`, `''`, `0.0`, `0`), but when
the title element is present without an `href` attribute, `name_elem['href']`
raises `KeyError` and the product is dropped by the `except`. -/
def parseProduct (pageUrl : String) (p : ProductItem) : Option ProductData :=
  let name := match p.name with
    | some (t, _) => t.trim
    | none => "N/A"
  let price := p.price.getD 0
  let descr := match p.descText with
    | some t => t.trim
    | none => ""
  let rating := p.rating.getD 0
  let reviews := p.reviews.getD 0
  match p.name with
  | some (_, none) => none
  | some (_, some h) =>
    some { name := name, price := price, description := descr,
           rating := rating, reviews := reviews,
           category := extractCategory pageUrl,
           url := "https://webscraper.io" ++ h }
  | none =>
    some { name := name, price := price, description := descr,
           rating := rating, reviews := reviews,
           category := extractCategory pageUrl, url := pageUrl }

/-- The `for book in books` loop of `scrape_books`: append each successfully
parsed book, skip (with a logged error) each book whose parse raises. -/
def booksLoop (env : ScrapeEnv) (url : String) : List BookItem → List BookData
  | [] => []
  | b :: rest =>
    match parseBook env url b with
    | some r => r :: booksLoop env url rest
    | none => booksLoop env url rest

/-- The `for product in products` loop of `scrape_products`. -/
def productsLoop (url : String) : List ProductItem → List ProductData
  | [] => []
  | p :: rest =>
    match parseProduct url p with
    | some r => r :: productsLoop url rest
    | none => productsLoop url rest

/-- `WebScraper.scrape_books(urls)`.  Besides the accumulated records it
returns, per URL in order, whether the politeness sleep
(`time.sleep(SCRAPING_CONFIG['delay_between_requests'])`) at the end of the
loop body ran after that URL: `if not html_content: continue` jumps straight
to the next URL, skipping the sleep, while a truthy page always reaches the
sleep — including for the last URL. -/
def scrapeBooksGo (env : ScrapeEnv) : List String → List BookData × List Bool
  | [] => ([], [])
  | url :: rest =>
    let tail := scrapeBooksGo env rest
    if truthy (env.fetch url) then
      (booksLoop env url (env.bookBlocks ((env.fetch url).getD "")) ++ tail.1,
       true :: tail.2)
    else
      (tail.1, false :: tail.2)

/-- `WebScraper.scrape_products(urls)`, same shape as `scrapeBooksGo`. -/
def scrapeProductsGo (env : ScrapeEnv) :
    List String → List ProductData × List Bool
  | [] => ([], [])
  | url :: rest =>
    let tail := scrapeProductsGo env rest
    if truthy (env.fetch url) then
      (productsLoop url (env.productBlocks ((env.fetch url).getD "")) ++ tail.1,
       true :: tail.2)
    else
      (tail.1, false :: tail.2)

-- ---------------------------------------------------------------------------
-- Database layer
-- ---------------------------------------------------------------------------

/-- One row of the `scraping_logs` table, as written by
`DatabaseManager.log_scraping_run` (timestamps and duration omitted: no
claim concerns them). -/
structure LogEntry where
  target : String
  status : String
  records_scraped : Nat
  error_message : Option String
  deriving DecidableEq

/-- The persistent store: the `books`, `products` and `scraping_logs`
tables. -/
structure DB where
  books : List BookData
  products : List ProductData
  logs : List LogEntry

/-- `DatabaseManager._save_data(data, table_name)` acting on one table:
empty data returns 0 without touching the store; a `SQLAlchemyError`
(modelled by `fails`) rolls the transaction back and returns 0; otherwise the
rows are appended and `len(data)` is returned. -/
def saveData (fails : Bool) (data : List α) (table : List α) :
    List α × Nat :=
  if data.isEmpty then (table, 0)
  else if fails then (table, 0)
  else (table ++ data, data.length)

/-- `DatabaseManager.export_to_csv(table_name)`: runs
`SELECT * FROM table_name` over the **current whole table** and writes every
row to the file; returns the written file's row count, or `none` when any
exception occurs (including an unknown table name). -/
def exportToCsv (env : ScrapeEnv) (db : DB) (tbl : String) : Option Nat :=
  if env.exportFails then none
  else if tbl = "books" then some db.books.length
  else if tbl = "products" then some db.products.length
  else none

-- ---------------------------------------------------------------------------
-- Job runner and orchestrator
-- ---------------------------------------------------------------------------

/-- `DatabaseManager.log_scraping_run`: builds the log row and inserts it,
but the insert sits in a `try`/`except SQLAlchemyError` that only logs the
error — when the insert raises, **no row is appended** and the caller never
learns of it. -/
def logScrapingRun (env : ScrapeEnv) (db : DB) (e : LogEntry) : DB :=
  if env.logFails then db else { db with logs := db.logs ++ [e] }

/-- `WebScraper.run_scraping_job(target)`.  The whole body sits in a `try`:
the `books` / `products` branches scrape, persist (`records_saved` is the
store's return value), export, and call `log_scraping_run` with `success`;
an uncaught exception in a branch — or the `ValueError` raised for an
unknown target — reaches the `except`, which calls `log_scraping_run` with
`failed`, `records_scraped = 0` and the exception message, and returns
`False`.  Either way the return value is independent of whether
`log_scraping_run` managed to insert its row. -/
def runScrapingJob (env : ScrapeEnv) (db : DB) (target : String) :
    DB × Bool :=
  if target = "books" then
    match env.scrapeBooksExn with
    | some msg =>
      (logScrapingRun env db ⟨"books", "failed", 0, some msg⟩, false)
    | none =>
      let data := (scrapeBooksGo env env.booksUrls).1
      let saved := saveData env.saveBooksFails data db.books
      (logScrapingRun env { db with books := saved.1 }
        ⟨"books", "success", saved.2, none⟩, true)
  else if target = "products" then
    match env.scrapeProductsExn with
    | some msg =>
      (logScrapingRun env db ⟨"products", "failed", 0, some msg⟩, false)
    | none =>
      let data := (scrapeProductsGo env env.productsUrls).1
      let saved := saveData env.saveProductsFails data db.products
      (logScrapingRun env { db with products := saved.1 }
        ⟨"products", "success", saved.2, none⟩, true)
  else
    (logScrapingRun env db
      ⟨target, "failed", 0, some ("Unknown target: " ++ target)⟩, false)

/-- The dictionary `DatabaseManager.get_scraping_stats` returns on success
(the Python `round(success_rate, 2)` float rounding is left exact). -/
structure RunStats where
  total_books : Nat
  total_products : Nat
  success_rate : Rat
  deriving DecidableEq

/-- The success-rate query of `get_scraping_stats`. -/
def successRate (logs : List LogEntry) : Rat :=
  let total := logs.length
  let ok := (logs.filter (fun e => e.status = "success")).length
  if total > 0 then (ok : Rat) / (total : Rat) * 100 else 0

/-- `DatabaseManager.get_scraping_stats()`: `none` models the `except`
branch, which returns the empty dict `{}`. -/
def getScrapingStats (env : ScrapeEnv) (db : DB) : Option RunStats :=
  if env.statsFails then none
  else some ⟨db.books.length, db.products.length, successRate db.logs⟩

/-- The values `WebScraper._generate_report` interpolates into the report
text (file/stdout formatting omitted). -/
structure Report where
  booksOk : Bool
  productsOk : Bool
  totalBooks : Nat
  totalProducts : Nat
  rate : Rat
  deriving DecidableEq

/-- `WebScraper._generate_report(stats, results)`: every statistic is read
with `stats.get(key, default)`, so a missing stats dict degrades to the
defaults `0`. -/
def generateReport (stats : Option RunStats) (results : List (String × Bool)) :
    Report :=
  { booksOk := (results.lookup "books").getD false
    productsOk := (results.lookup "products").getD false
    totalBooks := (stats.map RunStats.total_books).getD 0
    totalProducts := (stats.map RunStats.total_products).getD 0
    rate := (stats.map RunStats.success_rate).getD 0 }

/-- `WebScraper.run_all_scraping_jobs()`: run the jobs for `'books'` then
`'products'` sequentially (each on the store state the previous one left),
collect the per-target booleans, query stats and build the report. -/
def runAllScrapingJobs (env : ScrapeEnv) (db : DB) :
    DB × List (String × Bool) × Report :=
  let step1 := runScrapingJob env db "books"
  let step2 := runScrapingJob env step1.1 "products"
  let results := [("books", step1.2), ("products", step2.2)]
  (step2.1, results, generateReport (getScrapingStats env step2.1) results)

-- ---------------------------------------------------------------------------
-- Concrete fixtures for witnesses and counterexamples
-- ---------------------------------------------------------------------------

/-- A book block with every accessed element present. -/
def fullBook : BookItem :=
  ⟨some "T", some 10, some "Three", some "In stock", some "x.html"⟩

/-- A book block identical to `fullBook` except that the price element is
absent. -/
def bookNoPrice : BookItem :=
  ⟨some "T", none, some "Three", some "In stock", some "x.html"⟩

/-- A product block whose title element is present but carries no href
attribute; every other element is absent. -/
def prodNoHref : ProductItem := ⟨some ("t", none), none, none, none, none⟩

/-- An empty store. -/
def dbEmpty : DB := ⟨[], [], []⟩

/-- A quiet baseline environment: every fetch fails, pages hold no items,
no database call fails, no exception escapes a scrape. -/
def baseEnv : ScrapeEnv :=
  { fetch := fun _ => none
    bookBlocks := fun _ => []
    productBlocks := fun _ => []
    descMeta := fun _ => none
    booksUrls := []
    productsUrls := []
    saveBooksFails := false
    saveProductsFails := false
    exportFails := false
    statsFails := false
    logFails := false
    scrapeBooksExn := none
    scrapeProductsExn := none }

/-- Environment where the single books URL yields a page with one complete
book, but the books insert raises `SQLAlchemyError`. -/
def envSaveFail : ScrapeEnv :=
  { baseEnv with
    fetch := fun _ => some "x"
    bookBlocks := fun _ => [fullBook]
    booksUrls := ["u"]
    saveBooksFails := true }

/-- Environment where exactly the URL `"a"` fetches (non-empty) content. -/
def envOnlyA : ScrapeEnv :=
  { baseEnv with fetch := fun u => if u = "a" then some "x" else none }

/-- Environment whose two configured books URLs both fail to fetch. -/
def envAllFail : ScrapeEnv := { baseEnv with booksUrls := ["u1", "u2"] }

/-- Environment where statistics computation raises. -/
def envStatsFail : ScrapeEnv := { baseEnv with statsFails := true }

/-- Environment where the `scraping_logs` insert raises `SQLAlchemyError`
(swallowed inside `log_scraping_run`). -/
def envLogFail : ScrapeEnv := { baseEnv with logFails := true }

/-- Environment where every fetch succeeds with empty page content. -/
def envEmptyPage : ScrapeEnv := { baseEnv with fetch := fun _ => some "" }

/-- A sample persisted book row. -/
def bdSample : BookData := ⟨"T", 10, "Three", "In stock", "c", "u", ""⟩

-- ---------------------------------------------------------------------------
-- Helper lemmas
-- ---------------------------------------------------------------------------

theorem runScrapingJob_logs (env : ScrapeEnv) (db : DB) (target : String)
    (hl : env.logFails = false) :
    ∃ e : LogEntry, (runScrapingJob env db target).1.logs = db.logs ++ [e]
      ∧ ((runScrapingJob env db target).2 = true ↔ e.status = "success") := by
  unfold runScrapingJob logScrapingRun
  by_cases hb : target = "books"
  · subst hb
    cases hx : env.scrapeBooksExn with
    | none =>
      exact ⟨⟨"books", "success",
        (saveData env.saveBooksFails (scrapeBooksGo env env.booksUrls).1
          db.books).2, none⟩, by simp [hl], by simp⟩
    | some msg =>
      exact ⟨⟨"books", "failed", 0, some msg⟩, by simp [hl], by simp⟩
  · by_cases hp : target = "products"
    · subst hp
      cases hx : env.scrapeProductsExn with
      | none =>
        exact ⟨⟨"products", "success",
          (saveData env.saveProductsFails (scrapeProductsGo env env.productsUrls).1
            db.products).2, none⟩, by simp [hb, hl], by simp [hb]⟩
      | some msg =>
        exact ⟨⟨"products", "failed", 0, some msg⟩, by simp [hb, hl],
          by simp [hb]⟩
    · exact ⟨⟨target, "failed", 0, some ("Unknown target: " ++ target)⟩,
        by simp [hb, hp, hl], by simp [hb, hp]⟩

theorem booksLoop_append (env : ScrapeEnv) (url : String)
    (xs ys : List BookItem) :
    booksLoop env url (xs ++ ys) =
      booksLoop env url xs ++ booksLoop env url ys := by
  induction xs with
  | nil => rfl
  | cons b rest ih =>
    simp only [List.cons_append, booksLoop]
    cases parseBook env url b <;> simp [ih]

theorem productsLoop_append (url : String) (xs ys : List ProductItem) :
    productsLoop url (xs ++ ys) =
      productsLoop url xs ++ productsLoop url ys := by
  induction xs with
  | nil => rfl
  | cons p rest ih =>
    simp only [List.cons_append, productsLoop]
    cases parseProduct url p <;> simp [ih]

theorem scrapeBooksGo_flags (env : ScrapeEnv) (urls : List String) :
    (scrapeBooksGo env urls).2 = urls.map (fun u => truthy (env.fetch u)) := by
  induction urls with
  | nil => rfl
  | cons u rest ih =>
    simp only [scrapeBooksGo, List.map_cons]
    by_cases h : truthy (env.fetch u) <;> simp [h, ih]

theorem scrapeProductsGo_flags (env : ScrapeEnv) (urls : List String) :
    (scrapeProductsGo env urls).2 =
      urls.map (fun u => truthy (env.fetch u)) := by
  induction urls with
  | nil => rfl
  | cons u rest ih =>
    simp only [scrapeProductsGo, List.map_cons]
    by_cases h : truthy (env.fetch u) <;> simp [h, ih]

theorem scrapeBooksGo_all_untruthy (env : ScrapeEnv) (urls : List String)
    (hf : ∀ u ∈ urls, truthy (env.fetch u) = false) :
    (scrapeBooksGo env urls).1 = [] := by
  induction urls with
  | nil => rfl
  | cons u rest ih =>
    have hu : truthy (env.fetch u) = false := hf u (List.mem_cons_self u rest)
    simp only [scrapeBooksGo, hu]
    exact ih (fun v hv => hf v (List.mem_cons_of_mem u hv))

theorem saveData_len (fails : Bool) (data table : List α) :
    (saveData fails data table).1.length =
      table.length + (saveData fails data table).2 := by
  unfold saveData
  by_cases h : data.isEmpty
  · simp [h]
  · by_cases hf : fails <;> simp [h, hf]

-- ---------------------------------------------------------------------------
-- Lemmas about the retry loop
-- ---------------------------------------------------------------------------

theorem fetchGo_attempts_le (resp : Nat → Option String) (a r : Nat) :
    (fetchGo resp a r).attempts ≤ r := by
  induction r generalizing a with
  | zero => simp [fetchGo]
  | succ r ih =>
    unfold fetchGo
    cases resp a with
    | some c => simp
    | none =>
      by_cases hr : r = 0
      · simp [hr]
      · simpa [hr] using Nat.succ_le_succ (ih (a + 1))

theorem range_pow_shift (a r : Nat) :
    (List.range (r + 1)).map (fun i => 2 ^ (a + i)) =
      2 ^ a :: (List.range r).map (fun i => 2 ^ (a + 1 + i)) := by
  rw [List.range_succ_eq_map]
  simp only [List.map_cons, List.map_map, Nat.add_zero]
  congr 1
  apply List.map_congr_left
  intro i _
  simp only [Function.comp_apply]
  congr 1
  omega

theorem fetchGo_all_fail (resp : Nat → Option String) (a r : Nat)
    (h : 1 ≤ r) (hf : ∀ k, k < r → resp (a + k) = none) :
    fetchGo resp a r =
      ⟨none, r, (List.range (r - 1)).map (fun i => 2 ^ (a + i))⟩ := by
  induction r generalizing a with
  | zero => omega
  | succ r ih =>
    have ha : resp a = none := by simpa using hf 0 (Nat.succ_pos r)
    unfold fetchGo
    by_cases hr : r = 0
    · subst hr; simp [ha]
    · have h1 : 1 ≤ r := Nat.one_le_iff_ne_zero.mpr hr
      have hrec := ih (a + 1) h1 (fun k hk => by
        have := hf (k + 1) (by omega)
        simpa [Nat.add_assoc, Nat.add_comm 1 k] using this)
      obtain ⟨r', rfl⟩ : ∃ r', r = r' + 1 := ⟨r - 1, by omega⟩
      simp only [ha, hr, if_false, hrec, Nat.succ_sub_one, range_pow_shift]

theorem fetchGo_first_success (resp : Nat → Option String) (a r j : Nat)
    (c : String) (hj : j < r) (hf : ∀ k, k < j → resp (a + k) = none)
    (hs : resp (a + j) = some c) :
    fetchGo resp a r =
      ⟨some c, j + 1, (List.range j).map (fun i => 2 ^ (a + i))⟩ := by
  induction j generalizing a r with
  | zero =>
    obtain ⟨r', rfl⟩ : ∃ r', r = r' + 1 := ⟨r - 1, by omega⟩
    have ha : resp a = some c := by simpa using hs
    unfold fetchGo
    simp [ha]
  | succ j ih =>
    obtain ⟨r', rfl⟩ : ∃ r', r = r' + 1 := ⟨r - 1, by omega⟩
    have ha : resp a = none := by simpa using hf 0 (Nat.succ_pos j)
    have hr' : r' ≠ 0 := by omega
    have hrec := ih (a + 1) r' (by omega)
      (fun k hk => by
        have := hf (k + 1) (by omega)
        simpa [Nat.add_assoc, Nat.add_comm 1 k] using this)
      (by simpa [Nat.add_assoc, Nat.add_comm 1 j] using hs)
    unfold fetchGo
    simp only [ha, hr', if_false, hrec, range_pow_shift]

/-- C2: for every URL (modelled by its per-attempt response function `resp`)
and every configured maximum attempt count `n ≥ 1`, `fetch_page` makes at most
`n` attempts; when every attempt fails it makes exactly `n` attempts, waits
`2^(k-1)` seconds after each failed attempt `k = 1..n-1` (so `n - 1` waits,
none after the final attempt) and returns `none`; and when the first success
occurs at attempt `j + 1` it returns that page content after exactly `j + 1`
attempts, with no retry after the success. -/
theorem fetch_page_retry_policy (resp : Nat → Option String) (n : Nat)
    (hn : 1 ≤ n) :
    (fetchPage resp n).attempts ≤ n
    ∧ ((∀ k, k < n → resp k = none) →
        fetchPage resp n = ⟨none, n, (List.range (n - 1)).map (fun k => 2 ^ k)⟩)
    ∧ (∀ j c, j < n → (∀ k, k < j → resp k = none) → resp j = some c →
        fetchPage resp n = ⟨some c, j + 1, (List.range j).map (fun k => 2 ^ k)⟩) := by
  refine ⟨fetchGo_attempts_le resp 0 n, ?_, ?_⟩
  · intro hf
    have := fetchGo_all_fail resp 0 n hn (fun k hk => by simpa using hf k hk)
    simpa using this
  · intro j c hj hf hs
    have := fetchGo_first_success resp 0 n j c hj
      (fun k hk => by simpa using hf k hk) (by simpa using hs)
    simpa using this

/-- Witness for C2 at `n = 3` with an always-failing endpoint: exactly 3
attempts, waits `[1, 2]`, result absent. -/
theorem fetch_page_retry_policy_witness :
    (fetchPage (fun _ => none) 3).attempts ≤ 3
    ∧ ((∀ k, k < 3 → (fun _ => (none : Option String)) k = none) →
        fetchPage (fun _ => none) 3 =
          ⟨none, 3, (List.range (3 - 1)).map (fun k => 2 ^ k)⟩)
    ∧ (∀ j c, j < 3 → (∀ k, k < j → (fun _ => (none : Option String)) k = none) →
        (fun _ => (none : Option String)) j = some c →
        fetchPage (fun _ => none) 3 =
          ⟨some c, j + 1, (List.range j).map (fun k => 2 ^ k)⟩) :=
  fetch_page_retry_policy (fun _ => none) 3 (by norm_num)

-- ---------------------------------------------------------------------------
-- C1: records-scraped vs store acceptance and job status
-- ---------------------------------------------------------------------------

/-- C1 counterexample: in `envSaveFail` extraction produces one book but the
insert raises, and `run_scraping_job` still logs status `success` with
records-scraped 0 — the claimed downgrade to `failed` does not happen. -/
theorem persistence_failure_status_counterexample :
    (runScrapingJob envSaveFail dbEmpty "books").1.logs.map LogEntry.status
      = ["success"]
    ∧ (runScrapingJob envSaveFail dbEmpty "books").1.logs.map
        LogEntry.records_scraped = [0]
    ∧ (scrapeBooksGo envSaveFail envSaveFail.booksUrls).1.length = 1
    ∧ ¬((runScrapingJob envSaveFail dbEmpty "books").1.logs.map
        LogEntry.status = ["failed"]) := by
  refine ⟨rfl, rfl, rfl, ?_⟩
  intro h
  have : ("success" :: []) = ("failed" :: []) := h
  simp at this

/-- C1 (amended): records-scraped in the logged JobResult equals the count the
store returned — 0 when the store rejected the insert, even though extraction
produced records — but a store rejection does **not** downgrade the status:
the store layer absorbs the persistence error and the job still logs
`success` with records-scraped 0 (stated under the side condition that the
log insert itself succeeds).  Only an exception that reaches the job
boundary produces a `failed` entry. -/
theorem records_scraped_is_store_count (env : ScrapeEnv) (db : DB)
    (hb : env.scrapeBooksExn = none) (hp : env.scrapeProductsExn = none)
    (hl : env.logFails = false) :
    (runScrapingJob env db "books").1.logs =
      db.logs ++ [⟨"books", "success",
        (saveData env.saveBooksFails (scrapeBooksGo env env.booksUrls).1
          db.books).2, none⟩]
    ∧ (env.saveBooksFails = true →
        (saveData env.saveBooksFails (scrapeBooksGo env env.booksUrls).1
          db.books).2 = 0)
    ∧ (runScrapingJob env db "products").1.logs =
      db.logs ++ [⟨"products", "success",
        (saveData env.saveProductsFails
          (scrapeProductsGo env env.productsUrls).1 db.products).2, none⟩]
    ∧ (env.saveProductsFails = true →
        (saveData env.saveProductsFails
          (scrapeProductsGo env env.productsUrls).1 db.products).2 = 0) := by
  refine ⟨?_, ?_, ?_, ?_⟩
  · simp [runScrapingJob, logScrapingRun, hb, hl]
  · intro hf
    unfold saveData
    by_cases h : (scrapeBooksGo env env.booksUrls).1.isEmpty <;> simp [h, hf]
  · simp [runScrapingJob, logScrapingRun, hp, hl]
  · intro hf
    unfold saveData
    by_cases h : (scrapeProductsGo env env.productsUrls).1.isEmpty <;>
      simp [h, hf]

/-- Witness for C1 (amended) in the store-rejection environment. -/
theorem records_scraped_is_store_count_witness :
    (runScrapingJob envSaveFail dbEmpty "books").1.logs =
      dbEmpty.logs ++ [⟨"books", "success",
        (saveData envSaveFail.saveBooksFails
          (scrapeBooksGo envSaveFail envSaveFail.booksUrls).1
          dbEmpty.books).2, none⟩]
    ∧ (envSaveFail.saveBooksFails = true →
        (saveData envSaveFail.saveBooksFails
          (scrapeBooksGo envSaveFail envSaveFail.booksUrls).1
          dbEmpty.books).2 = 0)
    ∧ (runScrapingJob envSaveFail dbEmpty "products").1.logs =
      dbEmpty.logs ++ [⟨"products", "success",
        (saveData envSaveFail.saveProductsFails
          (scrapeProductsGo envSaveFail envSaveFail.productsUrls).1
          dbEmpty.products).2, none⟩]
    ∧ (envSaveFail.saveProductsFails = true →
        (saveData envSaveFail.saveProductsFails
          (scrapeProductsGo envSaveFail envSaveFail.productsUrls).1
          dbEmpty.products).2 = 0) :=
  records_scraped_is_store_count envSaveFail dbEmpty rfl rfl rfl

-- ---------------------------------------------------------------------------
-- C3: exactly one log entry per job, boolean matches logged status
-- ---------------------------------------------------------------------------

/-- C3 counterexample: when the `scraping_logs` insert raises
`SQLAlchemyError`, `log_scraping_run` swallows it and appends **no** row, yet
`run_scraping_job` still returns `True` — so a job execution can leave zero
JobResult entries in the log store, refuting "appends exactly one JobResult
entry ... for every failure point". -/
theorem log_insert_failure_counterexample :
    (runScrapingJob envLogFail dbEmpty "books").1.logs = []
    ∧ (runScrapingJob envLogFail dbEmpty "books").2 = true
    ∧ ¬((runScrapingJob envLogFail dbEmpty "books").1.logs.length =
        dbEmpty.logs.length + 1) := by
  refine ⟨rfl, rfl, ?_⟩
  intro h
  have h0 : (0 : Nat) = 1 := h
  simp at h0

/-- C3 (amended): whenever the log-store insert itself succeeds,
`run_scraping_job` appends exactly one JobResult row — whatever the target
(known or unknown) and whatever failure point the job hit — and returns
`true` exactly when that row's status is `success`; but when the insert
raises `SQLAlchemyError`, the error is swallowed inside `log_scraping_run`,
no row at all is appended, and the job's boolean return is unchanged. -/
theorem run_job_logs_exactly_once (env : ScrapeEnv) (db : DB)
    (target : String) :
    (env.logFails = false →
      ∃ e : LogEntry, (runScrapingJob env db target).1.logs = db.logs ++ [e]
        ∧ ((runScrapingJob env db target).2 = true ↔ e.status = "success"))
    ∧ (env.logFails = true →
        (runScrapingJob env db target).1.logs = db.logs) := by
  constructor
  · intro hl
    exact runScrapingJob_logs env db target hl
  · intro hl
    unfold runScrapingJob logScrapingRun
    by_cases hb : target = "books"
    · subst hb
      cases env.scrapeBooksExn <;> simp [hl]
    · by_cases hp : target = "products"
      · subst hp
        cases env.scrapeProductsExn <;> simp [hb, hl]
      · simp [hb, hp, hl]

/-- Witness for C3 (amended): with a healthy log store the books job appends
its one row; with a failing log insert it appends none. -/
theorem run_job_logs_exactly_once_witness :
    (∃ e : LogEntry,
      (runScrapingJob baseEnv dbEmpty "books").1.logs = dbEmpty.logs ++ [e]
      ∧ ((runScrapingJob baseEnv dbEmpty "books").2 = true ↔
          e.status = "success"))
    ∧ (runScrapingJob envLogFail dbEmpty "books").1.logs = dbEmpty.logs :=
  ⟨(run_job_logs_exactly_once baseEnv dbEmpty "books").1 rfl,
   (run_job_logs_exactly_once envLogFail dbEmpty "books").2 rfl⟩

-- ---------------------------------------------------------------------------
-- C4: the politeness delay schedule
-- ---------------------------------------------------------------------------

/-- C4 counterexample: with a single, successfully fetched URL the politeness
sleep **does** run after the final URL (the claim says it is skipped), and
with a failing first URL no sleep runs after it (the claim says the delay
also follows failure-to-fetch): the flag traces are `[true]` and
`[false, true]`, not the claimed `[false]` and `[true, false]`. -/
theorem politeness_delay_counterexample :
    (scrapeBooksGo envOnlyA ["a"]).2 = [true]
    ∧ ¬((scrapeBooksGo envOnlyA ["a"]).2 = [false])
    ∧ (scrapeBooksGo envOnlyA ["b", "a"]).2 = [false, true]
    ∧ ¬((scrapeBooksGo envOnlyA ["b", "a"]).2 = [true, false])
    ∧ (scrapeProductsGo envOnlyA ["a"]).2 = [true] := by
  refine ⟨rfl, ?_, rfl, ?_, rfl⟩
  · intro h
    have : (true :: []) = (false :: []) := h
    simp at this
  · intro h
    have : (false :: true :: []) = (true :: false :: []) := h
    simp at this

/-- C4 (amended): for every environment and URL list, and for both target
scrapers, the politeness delay runs after exactly the URLs whose fetched
content is truthy (non-absent and non-empty) — including the final one —
while a URL whose fetch came back falsy is skipped with no delay (`continue`
jumps over the sleep). -/
theorem politeness_delay_after_truthy_urls (env : ScrapeEnv)
    (urls : List String) :
    (scrapeBooksGo env urls).2 = urls.map (fun u => truthy (env.fetch u))
    ∧ (scrapeProductsGo env urls).2 =
        urls.map (fun u => truthy (env.fetch u)) :=
  ⟨scrapeBooksGo_flags env urls, scrapeProductsGo_flags env urls⟩

-- ---------------------------------------------------------------------------
-- C5: per-field defaults
-- ---------------------------------------------------------------------------

/-- C5 counterexample: a book block with every field present except the price
element is dropped entirely by the books extractor — there is no per-field
default for books, contradicting the claim that a single missing field never
causes the item to be dropped. -/
theorem missing_price_drops_book_counterexample :
    parseBook baseEnv "u" bookNoPrice = none
    ∧ booksLoop baseEnv "u" [bookNoPrice] = []
    ∧ bookNoPrice.title.isSome = true
    ∧ bookNoPrice.ratingClass.isSome = true
    ∧ bookNoPrice.availabilityText.isSome = true
    ∧ bookNoPrice.href.isSome = true :=
  ⟨rfl, rfl, rfl, rfl, rfl, rfl⟩

/-- C5 (amended): only the products extractor has per-field defaults: any of
its five elements may be absent and the record is still produced — with
`"N/A"`, `0.0`, `""`, `0.0`, `0` substituted and the record URL falling back
to the page URL when the title element is missing — provided a present title
element carries its href attribute (`name_elem['href']` raises otherwise).
The books extractor has no defaults at all: a book block missing any one of
its expected fields is dropped by the per-item exception handler. -/
theorem per_field_defaults_products_only (url : String) (p : ProductItem)
    (hp : p.name = none ∨ ∃ t h, p.name = some (t, some h)) :
    (parseProduct url p).isSome = true
    ∧ parseProduct url ⟨none, none, none, none, none⟩ =
        some ⟨"N/A", 0, "", 0, 0, extractCategory url, url⟩
    ∧ (∀ env u b, (b.title = none ∨ b.price = none ∨ b.ratingClass = none
        ∨ b.availabilityText = none ∨ b.href = none) →
        parseBook env u b = none) := by
  refine ⟨?_, rfl, ?_⟩
  · rcases hp with h | ⟨t, hr, h⟩ <;> simp [parseProduct, h]
  · intro env u b h
    cases ht : b.title <;> cases hpr : b.price <;> cases hrt : b.ratingClass <;>
      cases hav : b.availabilityText <;> cases hh : b.href <;>
      simp_all [parseBook]

/-- Witness for C5 (amended) at the all-absent product block. -/
theorem per_field_defaults_products_only_witness :
    (parseProduct "u" ⟨none, none, none, none, none⟩).isSome = true
    ∧ parseProduct "u" ⟨none, none, none, none, none⟩ =
        some ⟨"N/A", 0, "", 0, 0, extractCategory "u", "u"⟩
    ∧ (∀ env u b, (b.title = none ∨ b.price = none ∨ b.ratingClass = none
        ∨ b.availabilityText = none ∨ b.href = none) →
        parseBook env u b = none) :=
  per_field_defaults_products_only "u" ⟨none, none, none, none, none⟩
    (Or.inl rfl)

-- ---------------------------------------------------------------------------
-- C6: one malformed item never aborts extraction
-- ---------------------------------------------------------------------------

/-- C6: for both extractors, a malformed item block (one whose per-item parse
raises, modelled by `none`) is dropped and the loop continues: the extracted
record sequence is exactly that of the remaining items, so extraction never
propagates an exception out of one item. -/
theorem extraction_isolates_malformed_item (env : ScrapeEnv) (url : String)
    (pre post : List BookItem) (b : BookItem)
    (hb : parseBook env url b = none)
    (pre2 post2 : List ProductItem) (q : ProductItem)
    (hq : parseProduct url q = none) :
    booksLoop env url (pre ++ b :: post) =
      booksLoop env url pre ++ booksLoop env url post
    ∧ productsLoop url (pre2 ++ q :: post2) =
        productsLoop url pre2 ++ productsLoop url post2 := by
  constructor
  · rw [booksLoop_append]
    simp only [booksLoop, hb]
  · rw [productsLoop_append]
    simp only [productsLoop, hq]

/-- Witness for C6: the price-less book and the href-less product are dropped
while the surrounding items survive. -/
theorem extraction_isolates_malformed_item_witness :
    booksLoop baseEnv "u" ([fullBook] ++ bookNoPrice :: [fullBook]) =
      booksLoop baseEnv "u" [fullBook] ++ booksLoop baseEnv "u" [fullBook]
    ∧ productsLoop "u" ([] ++ prodNoHref :: []) =
        productsLoop "u" [] ++ productsLoop "u" [] :=
  extraction_isolates_malformed_item baseEnv "u" [fullBook] [fullBook]
    bookNoPrice rfl [] [] prodNoHref rfl

-- ---------------------------------------------------------------------------
-- C7: the orchestrator is complete and robust
-- ---------------------------------------------------------------------------

/-- C7: for every environment and store state, `run_all_scraping_jobs`
produces a result mapping with exactly the configured targets in the fixed
order books-then-products; each target's job runs (the products job on the
state the books job left, whatever its outcome — one log row per job is
appended whenever the log-store inserts succeed); and when statistics
computation fails the report is still built, from default (zero)
statistics. -/
theorem run_all_complete_and_robust (env : ScrapeEnv) (db : DB)
    (hl : env.logFails = false) :
    (runAllScrapingJobs env db).2.1.map Prod.fst = ["books", "products"]
    ∧ (runAllScrapingJobs env db).2.1 =
        [("books", (runScrapingJob env db "books").2),
         ("products",
          (runScrapingJob env (runScrapingJob env db "books").1 "products").2)]
    ∧ (runAllScrapingJobs env db).1.logs.length = db.logs.length + 2
    ∧ (env.statsFails = true →
        (runAllScrapingJobs env db).2.2 =
          ⟨(runScrapingJob env db "books").2,
           (runScrapingJob env (runScrapingJob env db "books").1 "products").2,
           0, 0, 0⟩) := by
  obtain ⟨e1, he1, -⟩ := runScrapingJob_logs env db "books" hl
  obtain ⟨e2, he2, -⟩ :=
    runScrapingJob_logs env (runScrapingJob env db "books").1 "products" hl
  refine ⟨rfl, rfl, ?_, ?_⟩
  · show (runScrapingJob env (runScrapingJob env db "books").1
      "products").1.logs.length = db.logs.length + 2
    rw [he2, he1]
    simp
  · intro hs
    show generateReport
      (getScrapingStats env
        (runScrapingJob env (runScrapingJob env db "books").1 "products").1)
      [("books", (runScrapingJob env db "books").2),
       ("products",
        (runScrapingJob env (runScrapingJob env db "books").1 "products").2)]
      = _
    simp [getScrapingStats, hs, generateReport, List.lookup]

/-- Witness for C7 with failing statistics: the report is built from default
zero statistics. -/
theorem run_all_complete_and_robust_witness :
    (runAllScrapingJobs envStatsFail dbEmpty).2.1.map Prod.fst =
        ["books", "products"]
    ∧ (runAllScrapingJobs envStatsFail dbEmpty).2.1 =
        [("books", (runScrapingJob envStatsFail dbEmpty "books").2),
         ("products",
          (runScrapingJob envStatsFail
            (runScrapingJob envStatsFail dbEmpty "books").1 "products").2)]
    ∧ (runAllScrapingJobs envStatsFail dbEmpty).1.logs.length =
        dbEmpty.logs.length + 2
    ∧ (envStatsFail.statsFails = true →
        (runAllScrapingJobs envStatsFail dbEmpty).2.2 =
          ⟨(runScrapingJob envStatsFail dbEmpty "books").2,
           (runScrapingJob envStatsFail
             (runScrapingJob envStatsFail dbEmpty "books").1 "products").2,
           0, 0, 0⟩) :=
  run_all_complete_and_robust envStatsFail dbEmpty rfl

-- ---------------------------------------------------------------------------
-- C8: zero reachable URLs still log success with count 0
-- ---------------------------------------------------------------------------

/-- C8: when every configured books URL fails to fetch, `scrape_books`
returns the empty sequence and the job logs `success` with records-scraped 0
(persisting the empty set returns 0 without touching the table) and returns
`true`; stated under the side condition that the log insert itself
succeeds. -/
theorem all_urls_failing_job_success (env : ScrapeEnv) (db : DB)
    (hf : ∀ u ∈ env.booksUrls, env.fetch u = none)
    (hx : env.scrapeBooksExn = none) (hl : env.logFails = false) :
    (scrapeBooksGo env env.booksUrls).1 = []
    ∧ (runScrapingJob env db "books").1.logs =
        db.logs ++ [⟨"books", "success", 0, none⟩]
    ∧ (runScrapingJob env db "books").1.books = db.books
    ∧ (runScrapingJob env db "books").2 = true := by
  have hempty : (scrapeBooksGo env env.booksUrls).1 = [] :=
    scrapeBooksGo_all_untruthy env env.booksUrls
      (fun u hu => by rw [hf u hu]; rfl)
  refine ⟨hempty, ?_, ?_, ?_⟩
  · simp [runScrapingJob, logScrapingRun, hx, hl, hempty, saveData]
  · simp [runScrapingJob, logScrapingRun, hx, hl, hempty, saveData]
  · simp [runScrapingJob, hx]

/-- Witness for C8 with two unreachable books URLs. -/
theorem all_urls_failing_job_success_witness :
    (scrapeBooksGo envAllFail envAllFail.booksUrls).1 = []
    ∧ (runScrapingJob envAllFail dbEmpty "books").1.logs =
        dbEmpty.logs ++ [⟨"books", "success", 0, none⟩]
    ∧ (runScrapingJob envAllFail dbEmpty "books").1.books = dbEmpty.books
    ∧ (runScrapingJob envAllFail dbEmpty "books").2 = true :=
  all_urls_failing_job_success envAllFail dbEmpty (fun _ _ => rfl) rfl rfl

-- ---------------------------------------------------------------------------
-- C9: export row count vs persisted count
-- ---------------------------------------------------------------------------

/-- C9 counterexample: after a second persistence call on a table that
already holds one row, the store returns 1 but the export — which reads the
whole table with `SELECT *` — writes 2 rows, so the exported row count does
not equal the count returned by that persistence call. -/
theorem export_rowcount_counterexample :
    (saveData false [bdSample] []).2 = 1
    ∧ (saveData false [bdSample] (saveData false [bdSample] []).1).2 = 1
    ∧ exportToCsv baseEnv
        ⟨(saveData false [bdSample] (saveData false [bdSample] []).1).1,
         [], []⟩ "books" = some 2
    ∧ ¬(exportToCsv baseEnv
        ⟨(saveData false [bdSample] (saveData false [bdSample] []).1).1,
         [], []⟩ "books"
        = some (saveData false [bdSample]
            (saveData false [bdSample] []).1).2) := by
  refine ⟨rfl, rfl, rfl, ?_⟩
  intro h
  have h2 : (some 2 : Option Nat) = some 1 := h
  simp at h2

/-- C9 (amended): the flat file produced by exporting the table right after a
persistence call has row count equal to the table's prior row count plus the
count that persistence call returned; when the table was empty beforehand
this is exactly the persisted count, for every record sequence and every
persistence outcome. -/
theorem export_rowcount_amended (env : ScrapeEnv) (db : DB)
    (data : List BookData) (he : env.exportFails = false) :
    exportToCsv env
      { db with books := (saveData env.saveBooksFails data db.books).1 }
      "books"
      = some (db.books.length + (saveData env.saveBooksFails data db.books).2)
    ∧ (db.books = [] →
        exportToCsv env
          { db with books := (saveData env.saveBooksFails data db.books).1 }
          "books" = some (saveData env.saveBooksFails data db.books).2) := by
  have hlen := saveData_len env.saveBooksFails data db.books
  constructor
  · simp [exportToCsv, he, hlen]
  · intro h0
    rw [h0] at hlen
    simp only [List.length_nil, Nat.zero_add] at hlen
    simp [exportToCsv, he, hlen, h0]

/-- Witness for C9 (amended) on an empty table. -/
theorem export_rowcount_amended_witness :
    exportToCsv baseEnv
      { dbEmpty with
        books := (saveData baseEnv.saveBooksFails [bdSample] dbEmpty.books).1 }
      "books"
      = some (dbEmpty.books.length +
          (saveData baseEnv.saveBooksFails [bdSample] dbEmpty.books).2)
    ∧ (dbEmpty.books = [] →
        exportToCsv baseEnv
          { dbEmpty with
            books :=
              (saveData baseEnv.saveBooksFails [bdSample] dbEmpty.books).1 }
          "books"
          = some (saveData baseEnv.saveBooksFails [bdSample] dbEmpty.books).2) :=
  export_rowcount_amended baseEnv dbEmpty [bdSample] rfl

-- ---------------------------------------------------------------------------
-- C10: empty page content is treated like a fetch failure
-- ---------------------------------------------------------------------------

/-- C10: a fetch that succeeds with empty-string content is reported as a
success by the fetcher (one attempt, no retry, no wait), yet both target
scrapers treat the page exactly like a fetch failure: the URL is skipped
(which also skips the politeness sleep) and contributes no records. -/
theorem empty_content_treated_as_failure (resp : Nat → Option String)
    (n : Nat) (hn : 1 ≤ n) (h0 : resp 0 = some "")
    (env : ScrapeEnv) (url : String) (he : env.fetch url = some "") :
    fetchPage resp n = ⟨some "", 1, []⟩
    ∧ truthy (env.fetch url) = false
    ∧ (∀ rest, scrapeBooksGo env (url :: rest) =
        ((scrapeBooksGo env rest).1, false :: (scrapeBooksGo env rest).2))
    ∧ (∀ rest, scrapeProductsGo env (url :: rest) =
        ((scrapeProductsGo env rest).1,
         false :: (scrapeProductsGo env rest).2)) := by
  have ht : truthy (env.fetch url) = false := by rw [he]; rfl
  refine ⟨?_, ht, ?_, ?_⟩
  · have := fetchGo_first_success resp 0 n 0 "" hn
      (fun k hk => absurd hk (Nat.not_lt_zero k)) (by simpa using h0)
    simpa [fetchPage] using this
  · intro rest
    simp [scrapeBooksGo, ht]
  · intro rest
    simp [scrapeProductsGo, ht]

/-- Witness for C10 with a single-attempt fetcher returning empty content. -/
theorem empty_content_treated_as_failure_witness :
    fetchPage (fun _ => some "") 1 = ⟨some "", 1, []⟩
    ∧ truthy (envEmptyPage.fetch "u") = false
    ∧ (∀ rest, scrapeBooksGo envEmptyPage ("u" :: rest) =
        ((scrapeBooksGo envEmptyPage rest).1,
         false :: (scrapeBooksGo envEmptyPage rest).2))
    ∧ (∀ rest, scrapeProductsGo envEmptyPage ("u" :: rest) =
        ((scrapeProductsGo envEmptyPage rest).1,
         false :: (scrapeProductsGo envEmptyPage rest).2)) :=
  empty_content_treated_as_failure (fun _ => some "") 1 (Nat.le_refl 1) rfl
    envEmptyPage "u" rfl
